import Mathlib

/-!
Verification of the Transcript Analysis Engine
(transcript-intelligence-dashboard).

Shallow embedding of the Python sources under `src/lib/engine/`:
`mastery.py`, `mental_blocks.py`, `rule_based.py`, `gemini_processor.py`.
Python floats are modelled as exact rationals (`ℚ`), Python ints as `ℤ`
(or `ℕ` where the source only ever sees non-negative counts), and Python
`round(x, 1)` as round-half-to-even at one decimal, which is Python's
rounding mode.  Regular-expression matching (module `re`) is not modelled
term-by-term: every helper of the source that is a pure function of the
lowercased transcript built from `re` is abstracted as a function
parameter `String → List String`, and all theorems about the surrounding
code quantify over that parameter, so they hold for the actual regex
behaviour in particular.
-/

namespace Engine

/-! ## Python primitives -/

/-- Python `round` at 0 decimals: round half to even (banker's rounding). -/
def pyRound0 (q : ℚ) : ℤ :=
  let f := ⌊q⌋
  let r := q - f
  if r < 1/2 then f
  else if r > 1/2 then f + 1
  else if f % 2 = 0 then f else f + 1

/-- Python `round(x, 1)`: round half to even at one decimal place. -/
def round1 (q : ℚ) : ℚ := (pyRound0 (q * 10) : ℚ) / 10

/-- Substring test for character lists: does `pat` occur inside `s`?
Models Python's `pat in s` on strings. -/
def hasPrefixC : List Char → List Char → Bool
  | [], _ => true
  | _ :: _, [] => false
  | p :: ps, c :: cs => p == c && hasPrefixC ps cs

/-- `hasSubstr s pat = true` iff `pat` occurs as a contiguous substring
of `s` (Python `pat in s`): check a prefix match at every suffix. -/
def hasSubstr : List Char → List Char → Bool
  | [], pat => hasPrefixC pat []
  | c :: cs, pat => hasPrefixC pat (c :: cs) || hasSubstr cs pat

/-- Python `pat in lower` on strings. -/
def strIn (pat s : String) : Bool := hasSubstr s.toList pat.toList

/-! ## `src/lib/engine/mastery.py` -/

def IMPROVEMENT_WEIGHT : ℚ := 5
def ERROR_PENALTY_WEIGHT : ℚ := 3
def INDEPENDENT_SOLVE_BONUS : ℚ := 4
def MAX_SCORE : ℚ := 100
def MIN_SCORE : ℚ := 0

/-- `update_mastery(prev_score, improvement_factor, error_count,
independent_solves)` from `mastery.py`: add the weighted delta, round to
one decimal, clamp into `[0, 100]`. -/
def update_mastery (prev_score improvement_factor : ℚ)
    (error_count independent_solves : ℤ) : ℚ :=
  let delta := improvement_factor * IMPROVEMENT_WEIGHT
    - error_count * ERROR_PENALTY_WEIGHT
    + independent_solves * INDEPENDENT_SOLVE_BONUS
  let new_score := prev_score + delta
  max MIN_SCORE (min MAX_SCORE (round1 new_score))

/-- `update_confidence(prev_confidence, hesitation_count, positive_signals)`
from `mastery.py`. -/
def update_confidence (prev_confidence : ℚ)
    (hesitation_count positive_signals : ℤ) : ℚ :=
  let delta := positive_signals * 3 - hesitation_count * 4
  max MIN_SCORE (min MAX_SCORE (round1 (prev_confidence + delta)))

/-! ## `src/lib/engine/mental_blocks.py` -/

def ESCALATION_THRESHOLD : ℕ := 3
def SEVERITY_INCREMENT : ℚ := 3/2
def MAX_SEVERITY : ℚ := 10

def AVOIDANCE_PHRASES : List String :=
  ["i don't want to", "can we skip", "i hate", "not this again",
   "this is too hard", "i can't do this", "i'll never get",
   "let's do something else", "i give up", "this is boring",
   "do we have to"]

def HESITATION_PHRASES : List String :=
  ["i'm not sure", "i don't know", "wait", "umm", "uh", "i think maybe",
   "i forgot", "is it", "i'm confused", "what do you mean",
   "i don't understand", "can you explain again"]

def EMOTIONAL_PHRASES : List String :=
  ["i'm stressed", "i'm nervous", "i feel dumb", "everyone else gets it",
   "i'm so lost", "my brain hurts", "i'm going to fail", "i feel stupid"]

/-- One detected mental-block signal (the dicts built in
`detect_mental_block_signals`). The `type` field is the literal string
the source stores. -/
structure Signal where
  description : String
  type : String
  severity : ℚ
  deriving DecidableEq, Repr

/-- Number of hesitation phrases present in the lowercased transcript
(`sum(1 for p in HESITATION_PHRASES if p in transcript_lower)`). -/
def hesitationCount (transcript_lower : String) : ℕ :=
  (HESITATION_PHRASES.filter (fun p => strIn p transcript_lower)).length

/-- `detect_mental_block_signals(transcript_lower)` from
`mental_blocks.py`: avoidance hits at severity 3.0, emotional hits at
severity 4.0, and one hesitation signal at severity `2.0 + 0.5·count`
when at least 3 hesitation phrases occur. -/
def detect_mental_block_signals (transcript_lower : String) : List Signal :=
  (AVOIDANCE_PHRASES.filter (fun p => strIn p transcript_lower)).map
    (fun p => ⟨"Avoidance language detected: '" ++ p ++ "'", "avoidance", 3⟩)
  ++ (EMOTIONAL_PHRASES.filter (fun p => strIn p transcript_lower)).map
    (fun p => ⟨"Emotional distress signal: '" ++ p ++ "'", "emotional", 4⟩)
  ++ (let n := hesitationCount transcript_lower
      if n ≥ 3 then
        [⟨"High hesitation density (" ++ toString n ++ " signals)",
          "hesitation", 2 + n * (1/2)⟩]
      else [])

/-- `compute_severity(frequency_count, has_avoidance, has_emotional)`
from `mental_blocks.py`. -/
def compute_severity (frequency_count : ℕ)
    (has_avoidance has_emotional : Bool) : ℚ :=
  let base : ℚ := min (frequency_count * 1) 5
  let base := if frequency_count ≥ ESCALATION_THRESHOLD
    then base + SEVERITY_INCREMENT else base
  let base := if has_avoidance then base + 2 else base
  let base := if has_emotional then base + 3/2 else base
  min base MAX_SEVERITY

/-! ## `src/lib/engine/rule_based.py` -/

def TOPIC_KEYWORDS : List (String × List String) :=
  [("Algebra", ["algebra", "equation", "variable", "expression", "polynomial",
     "factor", "solve for x", "linear", "quadratic", "inequality",
     "system of equations", "substitution"]),
   ("Linear Equations", ["linear equation", "slope", "intercept", "y = mx + b",
     "graph the line", "solve for x", "one variable"]),
   ("Expressions & Simplification", ["simplify", "combine like terms",
     "distribute", "expression", "expand", "foil"]),
   ("Inequalities", ["inequality", "greater than", "less than", "number line",
     "≥", "≤", ">", "<"]),
   ("Fractions", ["fraction", "numerator", "denominator", "mixed number",
     "improper fraction", "common denominator", "reduce", "simplify fraction"]),
   ("Decimals", ["decimal", "decimal point", "tenths", "hundredths",
     "convert decimal"]),
   ("Ratios & Proportions", ["ratio", "proportion", "rate", "unit rate",
     "cross multiply", "scale factor"]),
   ("Geometry", ["geometry", "shape", "angle", "triangle", "circle", "polygon",
     "congruent", "similar", "parallel", "perpendicular"]),
   ("Angles & Triangles", ["angle", "triangle", "degree", "acute", "obtuse",
     "right angle", "isosceles", "equilateral", "scalene", "pythagorean"]),
   ("Area & Perimeter", ["area", "perimeter", "surface area", "volume",
     "square units", "length times width"]),
   ("Word Problems", ["word problem", "story problem", "how many", "how much",
     "total", "difference", "altogether"]),
   ("Rate Problems", ["rate", "speed", "distance", "time", "miles per hour",
     "km per hour"]),
   ("Age Problems", ["age", "years old", "how old", "older than",
     "younger than"]),
   ("Number Sense", ["number", "place value", "rounding", "estimation",
     "mental math", "arithmetic", "calculation"]),
   ("Exponents", ["exponent", "power", "squared", "cubed", "base"]),
   ("Probability", ["probability", "chance", "likely", "outcome", "event",
     "random"]),
   ("Statistics", ["mean", "median", "mode", "range", "average", "data",
     "graph", "chart"])]

def ENGAGEMENT_POSITIVE : List String :=
  ["can we do more", "another one", "what about", "interesting", "cool",
   "i like this", "fun", "let me try", "what if", "i have a question"]

def ENGAGEMENT_NEGATIVE : List String :=
  ["boring", "when are we done", "how much longer", "can we stop",
   "i'm tired", "whatever", "i don't care"]

/-- A goal dict built by the rule-based extractor:
`{"description", "measurable_outcome", "deadline"}`. -/
structure Goal where
  description : String
  measurable_outcome : String
  deadline : Option String
  deriving DecidableEq, Repr

/-- A topic dict `{"name", "parent"}` of a trial result. -/
structure TopicRef where
  name : String
  parent : Option String
  deriving DecidableEq, Repr

/-- A mastery-update dict of a session result. -/
structure MasteryUpdate where
  topic : String
  improvement : ℚ
  errors : ℕ
  independent_solves : ℕ
  deriving DecidableEq, Repr

/-- Result shape of `RuleBasedProcessor.process_trial`. -/
structure TrialResult where
  goals : List Goal
  topics : List TopicRef
  summary : String
  curriculum_recommendation : String
  deriving DecidableEq, Repr

/-- Result shape of `RuleBasedProcessor.process_session`. -/
structure SessionResult where
  topics_discussed : List String
  misconceptions : List String
  strengths : List String
  engagement_score : ℚ
  mastery_updates : List MasteryUpdate
  mental_block_signals : List Signal
  parent_summary : String
  tutor_insight : String
  recommended_next : String
  deriving DecidableEq, Repr

/-- Python whitespace characters recognised by `str.split()`. -/
def pyIsSpace (c : Char) : Bool :=
  c == ' ' || c == '\t' || c == '\n' || c == '\r' ||
  c.toNat == 11 || c.toNat == 12

/-- `len(s.split())`: number of maximal non-whitespace runs. -/
def wordCount (s : String) : ℕ :=
  (s.toList.foldl
    (fun (st : ℕ × Bool) c =>
      if pyIsSpace c then (st.1, false)
      else if st.2 then st else (st.1 + 1, true))
    (0, false)).1

/-- Python `str.strip()`: drop leading and trailing whitespace. -/
def pyStrip (s : String) : String :=
  ⟨((s.toList.dropWhile pyIsSpace).reverse.dropWhile pyIsSpace).reverse⟩

/-- Python `str.capitalize()`: first character uppercased, the rest
lowercased. -/
def pyCapitalize (s : String) : String :=
  match s.toList with
  | [] => ""
  | c :: cs => ⟨c.toUpper :: cs.map Char.toLower⟩

/-- Python `str.lower()`: lowercase character by character. -/
def pyLower (s : String) : String := ⟨s.toList.map Char.toLower⟩

/-- `RuleBasedProcessor._detect_topics`: a topic is detected when any of
its trigger keywords occurs as a substring of the lowercased transcript;
table order is output order. -/
def detect_topics (lower : String) : List String :=
  TOPIC_KEYWORDS.foldl
    (fun found tk =>
      if tk.2.any (fun kw => strIn kw lower) && !found.contains tk.1
      then found ++ [tk.1] else found)
    []

/-- `RuleBasedProcessor._get_parent_topic`: fixed sub-topic → parent
lookup (`dict.get`, absent keys give `None`). -/
def get_parent_topic (topic : String) : Option String :=
  (([("Linear Equations", "Algebra"),
     ("Expressions & Simplification", "Algebra"),
     ("Inequalities", "Algebra"),
     ("Fractions", "Number Sense"),
     ("Decimals", "Number Sense"),
     ("Ratios & Proportions", "Number Sense"),
     ("Angles & Triangles", "Geometry"),
     ("Area & Perimeter", "Geometry"),
     ("Rate Problems", "Word Problems"),
     ("Age Problems", "Word Problems"),
     ("Exponents", "Algebra"),
     ("Probability", "Statistics")] : List (String × String)).find?
    (fun e => e.1 == topic)).map (·.2)

/-- `RuleBasedProcessor._infer_curriculum`: priority-ordered keyword
check with a universal default. -/
def infer_curriculum (lower : String) : String :=
  if ["amc", "competition", "olympiad", "mathcounts"].any
      (fun w => strIn w lower) then "Competition Math (AMC/MathCounts)"
  else if ["sat", "act", "psat"].any (fun w => strIn w lower) then
    "SAT/ACT Prep"
  else if ["common core", "state test", "school"].any
      (fun w => strIn w lower) then "Common Core Aligned"
  else if ["ap", "calculus", "advanced"].any (fun w => strIn w lower) then
    "Advanced / AP Prep"
  else "General Math Proficiency"

/-- `RuleBasedProcessor._infer_outcome`: measurable outcome inferred
from keyword categories of the goal description. -/
def infer_outcome (goal_desc : String) : String :=
  let lower := pyLower goal_desc
  if ["score", "grade", "test"].any (fun w => strIn w lower) then
    "Achieve target score on relevant assessment"
  else if ["speed", "fast", "quick"].any (fun w => strIn w lower) then
    "Complete timed practice within target duration"
  else if ["understand", "concept", "foundation"].any
      (fun w => strIn w lower) then
    "Demonstrate conceptual understanding through explanation tasks"
  else "Show measurable improvement over 4 consecutive sessions"

/-- One deduplication step of `_extract_goals`' explicit phase: the body
of `for match in re.finditer(...)`. State is `(goals, seen)`; `seen`
holds the lowercased descriptions already emitted. -/
def goalStep (st : List Goal × List String) (m : String) :
    List Goal × List String :=
  let desc := pyCapitalize (pyStrip m)
  if desc.length > 10 && !st.2.contains (pyLower desc) then
    (st.1 ++ [⟨desc, infer_outcome desc, none⟩], st.2 ++ [pyLower desc])
  else st

/-- One step of `_extract_goals`' implicit phase: the body of
`for topic in topics[:3]`. -/
def implicitStep (st : List Goal × List String) (topic : String) :
    List Goal × List String :=
  let desc := "Build proficiency in " ++ topic
  if !st.2.contains (pyLower desc) then
    (st.1 ++ [⟨desc, "Score 80%+ on " ++ topic ++ " assessments", none⟩],
     st.2 ++ [pyLower desc])
  else st

/-- `RuleBasedProcessor._extract_goals(lower, lines)`.  The raw strings
produced by `re.finditer` over the three goal patterns (`match.group(1)`
in encounter order) are abstracted as the parameter `goal_matches`,
since the `re` module is not modelled; everything downstream of the
matches — strip/capitalize, length guard, case-insensitive dedup,
implicit topic goals, fallback goal, cap at 6 — is translated directly.
`lines` is accepted and unused exactly as in the source. -/
def extract_goals (goal_matches : List String) (lower : String)
    (lines : List String) : List Goal :=
  let st := goal_matches.foldl goalStep ([], [])
  let st := ((detect_topics lower).take 3).foldl implicitStep st
  let goals := st.1
  let goals := if goals.isEmpty then
      [⟨"Build overall math proficiency",
        "Demonstrate consistent improvement across sessions", none⟩]
    else goals
  goals.take 6

/-- `RuleBasedProcessor._score_engagement`. -/
def score_engagement (lower : String) : ℚ :=
  let positive : ℕ :=
    (ENGAGEMENT_POSITIVE.filter (fun p => strIn p lower)).length
  let negative : ℕ :=
    (ENGAGEMENT_NEGATIVE.filter (fun p => strIn p lower)).length
  let length_score : ℚ := min 40 ((wordCount lower : ℚ) / 10)
  let engagement := 50 + length_score + positive * 8 - negative * 12
  max 0 (min 100 (round1 engagement))

/-- Independence markers scanned by `_compute_mastery_signals`. -/
def INDEPENDENCE_MARKERS : List String :=
  ["by myself", "on my own", "i got it", "let me try"]

/-- `RuleBasedProcessor._compute_mastery_signals`: one shared
improvement/errors/solves vector applied to every detected topic.
(`lower` is accepted and unused exactly as in the source.) -/
def compute_mastery_signals (lower : String) (topics misconceptions
    strengths : List String) : List MasteryUpdate :=
  let error_count := misconceptions.length
  let independent_count :=
    (strengths.filter
      (fun s => INDEPENDENCE_MARKERS.any (fun w => strIn w s))).length
  topics.map (fun topic =>
    ⟨topic,
     if strengths.length > misconceptions.length then 3/10 else 1/10,
     min error_count 3,
     independent_count⟩)

/-- `RuleBasedProcessor._generate_parent_summary`. -/
def generate_parent_summary (topics strengths misconceptions : List String)
    (engagement : ℚ) : String :=
  let parts : List String :=
    (if !topics.isEmpty then
      ["Today we worked on: " ++ String.intercalate ", " (topics.take 3) ++ "."]
     else [])
    ++ (if !strengths.isEmpty then
      ["Your child showed strength in understanding key concepts."] else [])
    ++ (if !misconceptions.isEmpty then
      ["We identified " ++ toString misconceptions.length ++
       " area(s) that need more practice."] else [])
    ++ [if engagement ≥ 70 then "Engagement was great today!"
        else if engagement ≥ 50 then "Engagement was steady."
        else "We're working on building more engagement and motivation."]
    ++ ["Looking forward to continued progress next session!"]
  String.intercalate " " parts

/-- `RuleBasedProcessor._generate_tutor_insight`. -/
def generate_tutor_insight (topics misconceptions strengths : List String)
    (mental_blocks : List Signal) : String :=
  let parts : List String :=
    ["Topics covered: " ++
      (if !topics.isEmpty then String.intercalate ", " topics
       else "General review") ++ "."]
    ++ (if !misconceptions.isEmpty then
      ["Misconceptions detected (" ++ toString misconceptions.length ++
       "): Focus on conceptual reinforcement before procedural practice."]
     else [])
    ++ (if !strengths.isEmpty then
      ["Positive signals (" ++ toString strengths.length ++
       "): Student showing readiness to advance on demonstrated topics."]
     else [])
    ++ (if !mental_blocks.isEmpty then
      ["⚠️ Mental block signals (" ++ toString mental_blocks.length ++
       "): Consider scaffolding approach and confidence-building exercises."]
     else [])
  String.intercalate " " parts

/-- `RuleBasedProcessor._generate_recommendation`. -/
def generate_recommendation (topics misconceptions : List String)
    (mastery_updates : List MasteryUpdate) : String :=
  let fromTopics :=
    match topics with
    | t :: _ => "Recommended: Build on today's progress — introduce " ++
        "next-level problems in " ++ t ++ "."
    | [] => "Recommended: Review previous session topics and assess " ++
        "readiness for new material."
  if !misconceptions.isEmpty then
    "Recommended: Revisit concepts with errors using scaffolded examples. " ++
    "Start with guided practice before independent work."
  else
    match mastery_updates.filter (fun u => decide (u.improvement < 3/10)) with
    | u :: _ => "Recommended: Focus on strengthening " ++ u.topic ++
        " with varied problem types."
    | [] => fromTopics

/-- `RuleBasedProcessor._generate_trial_summary`. -/
def generate_trial_summary (goals : List Goal) (topics : List String)
    (curriculum : String) : String :=
  let parts : List String :=
    ["Curriculum track: " ++ curriculum ++ "."]
    ++ (if !goals.isEmpty then
      ["Identified " ++ toString goals.length ++ " learning goal(s)."] else [])
    ++ (if !topics.isEmpty then
      ["Key topic areas: " ++ String.intercalate ", " (topics.take 4) ++ "."]
     else [])
    ++ ["Initial assessment complete — ready for structured lesson planning."]
  String.intercalate " " parts

/-- The three helpers of `RuleBasedProcessor` that are built on Python's
`re` module, each a pure function of the lowercased transcript:
`goalMatches` stands for the `match.group(1)` strings of the three goal
patterns in `_extract_goals`, `misconceptions` for the full output of
`_detect_misconceptions`, `strengths` for the full output of
`_detect_strengths`.  Theorems quantify over this record, so they hold
for the actual regex behaviour in particular. -/
structure RegexOracle where
  goalMatches : String → List String
  misconceptions : String → List String
  strengths : String → List String

/-- `RuleBasedProcessor.process_trial(transcript, student_id)`. -/
def process_trial (R : RegexOracle) (transcript : String)
    (student_id : ℤ) : TrialResult :=
  let lower := pyLower transcript
  let lines := transcript.splitOn "\n"
  let goals := extract_goals (R.goalMatches lower) lower lines
  let topics := detect_topics lower
  let curriculum := infer_curriculum lower
  let summary := generate_trial_summary goals topics curriculum
  { goals := goals
    topics := topics.map (fun t => ⟨t, get_parent_topic t⟩)
    summary := summary
    curriculum_recommendation := curriculum }

/-- `RuleBasedProcessor.process_session(transcript, student_id)`. -/
def process_session (R : RegexOracle) (transcript : String)
    (student_id : ℤ) : SessionResult :=
  let lower := pyLower transcript
  let topics_discussed := detect_topics lower
  let misconceptions := R.misconceptions lower
  let strengths := R.strengths lower
  let engagement := score_engagement lower
  let mastery_updates :=
    compute_mastery_signals lower topics_discussed misconceptions strengths
  let mental_block_signals := detect_mental_block_signals lower
  { topics_discussed := topics_discussed
    misconceptions := misconceptions
    strengths := strengths
    engagement_score := engagement
    mastery_updates := mastery_updates
    mental_block_signals := mental_block_signals
    parent_summary := generate_parent_summary topics_discussed strengths
      misconceptions engagement
    tutor_insight := generate_tutor_insight topics_discussed misconceptions
      strengths mental_block_signals
    recommended_next := generate_recommendation topics_discussed
      misconceptions mastery_updates }

/-! ## `src/lib/engine/gemini_processor.py`

The parsed JSON dicts that `_validate_trial_result` and
`_validate_session_result` sanitise are modelled by a small Python-value
type `PyVal`; dicts are association lists in key-insertion order, which
is Python's dict order. -/

inductive PyVal where
  | none_ : PyVal
  | bool : Bool → PyVal
  | int : ℤ → PyVal
  | float : ℚ → PyVal
  | str : String → PyVal
  | list : List PyVal → PyVal
  | dict : List (String × PyVal) → PyVal
  deriving Repr

/-- Dict lookup `d[k]` / `d.get(k)` as an option. -/
def dlookup (d : List (String × PyVal)) (k : String) : Option PyVal :=
  (d.find? (fun e => e.1 == k)).map (·.2)

/-- Dict assignment `d[k] = v`: replace in place, else append. -/
def dset : List (String × PyVal) → String → PyVal → List (String × PyVal)
  | [], k, v => [(k, v)]
  | e :: rest, k, v =>
    if e.1 == k then (k, v) :: rest else e :: dset rest k v

/-- Python `d.setdefault(k, v)`. -/
def dsetdefault (d : List (String × PyVal)) (k : String) (v : PyVal) :
    List (String × PyVal) :=
  if (dlookup d k).isSome then d else d ++ [(k, v)]

/-- Python `d.get(k, v)`. -/
def dgetD (d : List (String × PyVal)) (k : String) (v : PyVal) : PyVal :=
  (dlookup d k).getD v

/-- Python truthiness of a value. -/
def pyTruthy : PyVal → Bool
  | .none_ => false
  | .bool b => b
  | .int n => n != 0
  | .float q => q != 0
  | .str s => !s.isEmpty
  | .list l => !l.isEmpty
  | .dict d => !d.isEmpty

/-- Python iteration `for x in v`: lists yield elements, strings yield
one-character strings, dicts yield keys, anything else raises
`TypeError`. -/
def pyIter : PyVal → Except String (List PyVal)
  | .list l => .ok l
  | .str s => .ok (s.toList.map (fun c => .str c.toString))
  | .dict d => .ok (d.map (fun e => PyVal.str e.1))
  | _ => .error "TypeError: object is not iterable"

/-- Value of a run of decimal digits. -/
def digitsVal (cs : List Char) : ℕ :=
  cs.foldl (fun a c => a * 10 + (c.toNat - 48)) 0

/-- Parse a Python decimal literal (optional sign, digits, optional
fractional part) as an exact rational; `none` on anything else.
Models the string grammar accepted by `float(str)` (without
exponents/specials, which the sources never feed it). -/
def parseDecimal (s : String) : Option ℚ :=
  let (sign, rest) : ℚ × List Char :=
    match (pyStrip s).toList with
    | '-' :: cs => (-1, cs)
    | '+' :: cs => (1, cs)
    | cs => (1, cs)
  let intPart := rest.takeWhile Char.isDigit
  let rest2 := rest.dropWhile Char.isDigit
  match rest2 with
  | [] =>
    if intPart.isEmpty then none
    else some (sign * digitsVal intPart)
  | '.' :: frac =>
    if frac.all Char.isDigit && !(intPart.isEmpty && frac.isEmpty) then
      some (sign * (digitsVal intPart +
        (digitsVal frac : ℚ) / 10 ^ frac.length))
    else none
  | _ => none

/-- Parse a Python integer literal (optional sign, digits, surrounding
whitespace allowed), the string grammar accepted by `int(str)`. -/
def parseIntLiteral (s : String) : Option ℤ :=
  let (sign, rest) : ℤ × List Char :=
    match (pyStrip s).toList with
    | '-' :: cs => (-1, cs)
    | '+' :: cs => (1, cs)
    | cs => (1, cs)
  if rest.isEmpty || !rest.all Char.isDigit then none
  else some (sign * digitsVal rest)

/-- Python `int(v)`: ints unchanged, bools 0/1, floats truncated toward
zero, strings parsed as integer literals; everything else raises. -/
def pyInt : PyVal → Except String ℤ
  | .int n => .ok n
  | .bool b => .ok (if b then 1 else 0)
  | .float q => .ok (if 0 ≤ q then ⌊q⌋ else -⌊-q⌋)
  | .str s =>
    match parseIntLiteral s with
    | some n => .ok n
    | none => .error "ValueError: invalid literal for int()"
  | _ => .error "TypeError: int() argument"

/-- Python `float(v)`. -/
def pyFloat : PyVal → Except String ℚ
  | .float q => .ok q
  | .int n => .ok n
  | .bool b => .ok (if b then 1 else 0)
  | .str s =>
    match parseDecimal s with
    | some q => .ok q
    | none => .error "ValueError: could not convert string to float"
  | _ => .error "TypeError: float() argument"

/-- The `setdefault` chain applied to a kept goal dict in
`_validate_trial_result`. -/
def sanitizeGoal (g : List (String × PyVal)) : List (String × PyVal) :=
  dsetdefault (dsetdefault (dsetdefault (dsetdefault g
    "measurable_outcome" (.str ""))
    "evidence_quote" (.str ""))
    "suggested_intervention" (.str ""))
    "deadline" .none_

/-- The goal filter of `_validate_trial_result`: keep dicts with a
truthy `description`, defaulting their optional fields. -/
def validGoals (gs : List PyVal) : List PyVal :=
  gs.filterMap (fun g =>
    match g with
    | .dict gd =>
      if pyTruthy (dgetD gd "description" .none_) then
        some (.dict (sanitizeGoal gd))
      else none
    | _ => none)

/-- The topic filter of `_validate_trial_result`: keep dicts with a
truthy `name`. -/
def validTopics (ts : List PyVal) : List PyVal :=
  ts.filter (fun t =>
    match t with
    | .dict td => pyTruthy (dgetD td "name" .none_)
    | _ => false)

/-- Sanitation of one kept mental-block dict in
`_validate_trial_result`.  Note the source coerces `severity` with a
bare `int(mb.get("severity", 5))`, so a non-coercible value raises out
of the whole validation. -/
def sanitizeBlock (mb : List (String × PyVal)) :
    Except String (List (String × PyVal)) :=
  let mb := dsetdefault mb "block_type" (.str "confusion")
  match pyInt (dgetD mb "severity" (.int 5)) with
  | .error e => .error e
  | .ok sev =>
    let mb := dset mb "severity" (.int (max 1 (min 10 sev)))
    let mb := dsetdefault mb "cognitive_explanation" (.str "")
    let mb := dsetdefault mb "impact_on_learning" (.str "")
    .ok mb

/-- The mental-block loop of `_validate_trial_result`. -/
def validBlocks : List PyVal → Except String (List PyVal)
  | [] => .ok []
  | mb :: rest =>
    match mb with
    | .dict md =>
      if pyTruthy (dgetD md "evidence_from_transcript" .none_) then
        match sanitizeBlock md with
        | .error e => .error e
        | .ok md' =>
          match validBlocks rest with
          | .error e => .error e
          | .ok r => .ok (.dict md' :: r)
      else validBlocks rest
    | _ => validBlocks rest

/-- `GeminiProcessor._validate_trial_result(result)`:
presence check for `goals`/`topics`, goal filtering with an emptiness
check, topic filtering (no emptiness check), mental-block sanitation,
then defaults. -/
def validate_trial_result (result : List (String × PyVal)) :
    Except String (List (String × PyVal)) :=
  match dlookup result "goals", dlookup result "topics" with
  | some gv, some tv =>
    match pyIter gv with
    | .error e => .error e
    | .ok gitems =>
      let vgoals := validGoals gitems
      let result := dset result "goals" (.list vgoals)
      if vgoals.isEmpty then
        .error "No valid goals extracted from transcript"
      else
        match pyIter tv with
        | .error e => .error e
        | .ok titems =>
          let result := dset result "topics" (.list (validTopics titems))
          match pyIter (dgetD result "mental_blocks" (.list [])) with
          | .error e => .error e
          | .ok mbitems =>
            match validBlocks mbitems with
            | .error e => .error e
            | .ok vblocks =>
              let result := dset result "mental_blocks" (.list vblocks)
              let result := dsetdefault result "summary"
                (.str "Trial session processed by AI.")
              let result := dsetdefault result "curriculum_recommendation"
                (.str "General Math Proficiency")
              let result := dsetdefault result "lesson_recommendations"
                (.list [])
              .ok result
  | _, _ => .error "Missing required fields: 'goals' and 'topics'"

/-- The engagement-score coercion of `_validate_session_result`:
`float(...)` guarded by `except (ValueError, TypeError)`, falling back
to `50.0`, then clamped to `[0, 100]`. -/
def sessionEngagement (v : PyVal) : ℚ :=
  let score := match pyFloat v with
    | .ok q => q
    | .error _ => 50
  max 0 (min 100 score)

/-- Sanitation of one mental-block signal in
`_validate_session_result`: here the `float(...)` coercion *is* guarded,
falling back to `1.0`, then clamped to `[0, 10]`. -/
def sanitizeSignal : PyVal → Option PyVal
  | .dict sd =>
    if pyTruthy (dgetD sd "description" .none_) then
      let sd := dsetdefault sd "type" (.str "confusion")
      let sev : ℚ := match pyFloat (dgetD sd "severity" (.int 1)) with
        | .ok q => q
        | .error _ => 1
      let sd := dset sd "severity" (.float (max 0 (min 10 sev)))
      let sd := dsetdefault sd "evidence_from_transcript" (.str "")
      let sd := dsetdefault sd "cognitive_explanation" (.str "")
      let sd := dsetdefault sd "impact_on_learning" (.str "")
      some (.dict sd)
    else none
  | _ => none

/-- Sanitation of one mastery update in `_validate_session_result`. -/
def sanitizeMastery : PyVal → Option PyVal
  | .dict md =>
    if pyTruthy (dgetD md "topic" .none_) then
      some (.dict (dsetdefault (dsetdefault (dsetdefault md
        "improvement" (.float 0)) "errors" (.int 0))
        "independent_solves" (.int 0)))
    else none
  | _ => none

/-- `GeminiProcessor._validate_session_result(result)`. -/
def validate_session_result (result : List (String × PyVal)) :
    Except String (List (String × PyVal)) :=
  let result := dsetdefault result "topics_discussed" (.list [])
  let result := dsetdefault result "misconceptions" (.list [])
  let result := dsetdefault result "strengths" (.list [])
  let result := dsetdefault result "mastery_updates" (.list [])
  let result := dsetdefault result "lesson_recommendations" (.list [])
  let result := dsetdefault result "parent_summary"
    (.str "Session completed successfully.")
  let result := dsetdefault result "tutor_insight"
    (.str "Session data processed.")
  let result := dsetdefault result "recommended_next"
    (.str "Continue with current progression.")
  let result := dset result "engagement_score"
    (.float (sessionEngagement (dgetD result "engagement_score" (.int 50))))
  match pyIter (dgetD result "mental_block_signals" (.list [])) with
  | .error e => .error e
  | .ok sigitems =>
    let result := dset result "mental_block_signals"
      (.list (sigitems.filterMap sanitizeSignal))
    match pyIter (dgetD result "mastery_updates" (.list [])) with
    | .error e => .error e
    | .ok muitems =>
      .ok (dset result "mastery_updates"
        (.list (muitems.filterMap sanitizeMastery)))

/-! ### The retry loop `GeminiProcessor._call_gemini` -/

def MAX_RETRIES : ℕ := 3
def RETRY_BASE_DELAY : ℚ := 1

/-- Outcome of one `self.model.generate_content(prompt)` invocation:
either the call raised (transport/remote failure) or it returned a
response with the given text. -/
inductive GenOutcome where
  | failure : String → GenOutcome
  | response : String → GenOutcome
  deriving DecidableEq, Repr

/-- Error surfaced by the retry loop.  `transport` wraps an exception of
the remote call itself, `malformed` an exception of `_extract_json` on a
returned response; `noAttempts` is the impossible empty-loop case. -/
inductive GeminiError where
  | transport : String → GeminiError
  | malformed : String → GeminiError
  | noAttempts : GeminiError
  deriving DecidableEq, Repr

/-- Observable trace of one `_call_gemini` execution: the value returned
or error raised, the number of `generate_content` invocations made, and
the list of backoff delays slept (in order). -/
structure CallTrace (α : Type) where
  result : Except GeminiError α
  remoteCalls : ℕ
  sleeps : List ℚ
  deriving Repr

/-- `RETRY_BASE_DELAY * (2 ** (attempt - 1))`. -/
def backoffDelay (attempt : ℕ) : ℚ := RETRY_BASE_DELAY * 2 ^ (attempt - 1)

/-- The body of `_call_gemini`'s `for attempt in range(1, MAX_RETRIES+1)`
loop.  The list holds the outcome of each remaining attempt's remote
call; `extract` is `_extract_json` (a parameter, since the loop treats
it as an opaque call).  Crucially, the source places the `_extract_json`
call *inside* the `try:` block, so its exceptions are caught by the same
`except Exception` handler as transport failures: both sleep the backoff
delay and retry while attempts remain, and the last error is re-raised
on exhaustion. -/
def callLoop {α : Type} (extract : String → Except String α) :
    List GenOutcome → ℕ → CallTrace α
  | [], _ => ⟨.error .noAttempts, 0, []⟩
  | o :: rest, attempt =>
    match o with
    | .failure msg =>
      match rest with
      | [] => ⟨.error (.transport msg), 1, []⟩
      | _ :: _ =>
        let t := callLoop extract rest (attempt + 1)
        ⟨t.result, t.remoteCalls + 1, backoffDelay attempt :: t.sleeps⟩
    | .response text =>
      match extract (pyStrip text) with
      | .ok d => ⟨.ok d, 1, []⟩
      | .error e =>
        match rest with
        | [] => ⟨.error (.malformed e), 1, []⟩
        | _ :: _ =>
          let t := callLoop extract rest (attempt + 1)
          ⟨t.result, t.remoteCalls + 1, backoffDelay attempt :: t.sleeps⟩

/-- `GeminiProcessor._call_gemini(prompt)` over an oracle `gen` giving
the outcome of each attempted remote call (at most `MAX_RETRIES` are
consumed), starting at attempt 1. -/
def call_gemini {α : Type} (extract : String → Except String α)
    (gen : List GenOutcome) : CallTrace α :=
  callLoop extract (gen.take MAX_RETRIES) 1

/-- Observable behaviour of `_extract_json` on the two concrete
response texts used below: a bare JSON object parses into its dict; a
text containing no `{` raises
`ValueError("No JSON object found in Gemini response")`.  This is used
only to instantiate the parametric retry loop at concrete inputs. -/
def extract_json_stub (t : String) : Except String (List (String × PyVal)) :=
  if t = "\x7b\"summary\": \"ok\"\x7d" then .ok [("summary", .str "ok")]
  else .error "No JSON object found in Gemini response"

/-! ## Helper lemmas -/

theorem pyRound0_intCast (n : ℤ) : pyRound0 (n : ℚ) = n := by
  unfold pyRound0
  norm_num

theorem round1_tenths (n : ℤ) : round1 ((n : ℚ) / 10) = (n : ℚ) / 10 := by
  unfold round1
  rw [div_mul_cancel₀ _ (by norm_num : (10 : ℚ) ≠ 0), pyRound0_intCast]

/-! ## Claims -/

/-- C1: for every `prev_score`, `improvement_factor`, `error_count` and
`independent_solves` (extreme values included), `update_mastery` equals
`prev + improvement·5 − errors·3 + independentSolves·4` rounded to one
decimal and clamped into `[0, 100]`, and in particular the result always
lies in `[0, 100]`. -/
theorem update_mastery_formula_and_clamped (p i : ℚ) (e s : ℤ) :
    update_mastery p i e s
      = max 0 (min 100 (round1 (p + (i * 5 - (e : ℚ) * 3 + (s : ℚ) * 4))))
    ∧ 0 ≤ update_mastery p i e s ∧ update_mastery p i e s ≤ 100 := by
  unfold update_mastery IMPROVEMENT_WEIGHT ERROR_PENALTY_WEIGHT
    INDEPENDENT_SOLVE_BONUS MIN_SCORE MAX_SCORE
  exact ⟨rfl, le_max_left _ _, max_le (by norm_num) (min_le_left _ _)⟩

/-- C2: `compute_severity` equals `min(frequencyCount·1.0, 5.0)` plus
`1.5` when `frequencyCount ≥ 3`, plus `2.0` on avoidance, plus `1.5` on
emotional, clamped to a ceiling of `10.0`; in particular
`compute_severity 0 false false = 0` and
`compute_severity 5 true true = 10`. -/
theorem compute_severity_formula (f : ℕ) (a e : Bool) :
    compute_severity f a e
      = min (min ((f : ℚ) * 1) 5 + (if 3 ≤ f then (3 : ℚ)/2 else 0)
          + (if a then (2 : ℚ) else 0) + (if e then (3 : ℚ)/2 else 0)) 10
    ∧ compute_severity 0 false false = 0
    ∧ compute_severity 5 true true = 10 := by
  refine ⟨?_, by norm_num [compute_severity, ESCALATION_THRESHOLD,
      MAX_SEVERITY], by norm_num [compute_severity, ESCALATION_THRESHOLD,
      SEVERITY_INCREMENT, MAX_SEVERITY]⟩
  simp only [compute_severity, ESCALATION_THRESHOLD, SEVERITY_INCREMENT,
    MAX_SEVERITY, ge_iff_le]
  split_ifs <;> ring_nf

/-- C9: neither rule-based operation reads `student_id`: both results
are invariant under changing it, for every transcript and every regex
behaviour. -/
theorem studentId_noninterference (R : RegexOracle) (t : String)
    (s1 s2 : ℤ) :
    process_trial R t s1 = process_trial R t s2
    ∧ process_session R t s1 = process_session R t s2 :=
  ⟨rfl, rfl⟩

/-- C6: the rule-based engagement score equals
`50 + min(40, wordCount/10) + 8·positives − 12·negatives` (counting
fixed phrases occurring as substrings of the lowercased transcript),
rounded to one decimal and clamped into `[0, 100]`. -/
theorem engagement_score_formula (R : RegexOracle) (t : String) (sid : ℤ) :
    (process_session R t sid).engagement_score
      = max 0 (min 100 (round1 (50 + min 40 ((wordCount (pyLower t) : ℚ) / 10)
        + 8 * (ENGAGEMENT_POSITIVE.countP (fun p => strIn p (pyLower t)) : ℚ)
        - 12 * (ENGAGEMENT_NEGATIVE.countP (fun p => strIn p (pyLower t)) : ℚ)))) := by
  show score_engagement (pyLower t) = _
  unfold score_engagement
  have h : ∀ x y : ℚ, x = y →
      max 0 (min 100 (round1 x)) = max 0 (min 100 (round1 y)) :=
    fun x y hxy => by rw [hxy]
  apply h
  rw [List.countP_eq_length_filter, List.countP_eq_length_filter]
  ring

/-- Invariant of the `(goals, seen)` state threaded through
`_extract_goals`: emitted descriptions are pairwise distinct
case-insensitively, and each one is recorded in `seen`. -/
def GoalsInv (st : List Goal × List String) : Prop :=
  (st.1.map (fun g => pyLower g.description)).Nodup
  ∧ ∀ g ∈ st.1, pyLower g.description ∈ st.2

theorem GoalsInv_append {st : List Goal × List String} (gl : Goal)
    (h : GoalsInv st) (hnot : pyLower gl.description ∉ st.2) :
    GoalsInv (st.1 ++ [gl], st.2 ++ [pyLower gl.description]) := by
  constructor
  · rw [List.map_append]
    refine List.Nodup.append h.1 (List.nodup_singleton _) ?_
    intro a ha hb
    rw [List.map_singleton, List.mem_singleton] at hb
    subst hb
    obtain ⟨g, hg, hgl⟩ := List.mem_map.mp ha
    exact hnot (hgl ▸ h.2 g hg)
  · intro g hg
    rcases List.mem_append.mp hg with h1 | h2
    · exact List.mem_append_left _ (h.2 g h1)
    · rw [List.mem_singleton] at h2
      subst h2
      exact List.mem_append_right _ (List.mem_singleton_self _)

theorem GoalsInv_goalStep (st : List Goal × List String) (m : String)
    (h : GoalsInv st) : GoalsInv (goalStep st m) := by
  have key : ∀ desc : String,
      GoalsInv (if (decide (desc.length > 10)
          && !st.2.contains (pyLower desc)) = true then
        (st.1 ++ [⟨desc, infer_outcome desc, none⟩], st.2 ++ [pyLower desc])
      else st) := by
    intro desc
    split
    · rename_i hc
      rw [Bool.and_eq_true] at hc
      exact GoalsInv_append _ h (by simpa using hc.2)
    · exact h
  exact key (pyCapitalize (pyStrip m))

theorem GoalsInv_implicitStep (st : List Goal × List String) (m : String)
    (h : GoalsInv st) : GoalsInv (implicitStep st m) := by
  have key : ∀ desc outcome : String,
      GoalsInv (if (!st.2.contains (pyLower desc)) = true then
        (st.1 ++ [⟨desc, outcome, none⟩], st.2 ++ [pyLower desc])
      else st) := by
    intro desc outcome
    split
    · rename_i hc
      exact GoalsInv_append _ h (by simpa using hc)
    · exact h
  exact key ("Build proficiency in " ++ m) _

theorem GoalsInv_foldl
    {f : List Goal × List String → String → List Goal × List String}
    (hf : ∀ st m, GoalsInv st → GoalsInv (f st m)) :
    ∀ (l : List String) (st), GoalsInv st → GoalsInv (l.foldl f st) := by
  intro l
  induction l with
  | nil => exact fun st h => h
  | cons a l ih => exact fun st h => ih _ (hf st a h)

/-- The invariants of `_extract_goals`, for every possible list of regex
matches and every transcript: between 1 and 6 goals, descriptions
pairwise distinct case-insensitively, and the generic fallback goal
exactly when both phases yielded nothing. -/
theorem extract_goals_invariants (ms : List String) (lower : String)
    (lines : List String) :
    1 ≤ (extract_goals ms lower lines).length
    ∧ (extract_goals ms lower lines).length ≤ 6
    ∧ ((extract_goals ms lower lines).map
        (fun g => pyLower g.description)).Nodup := by
  have hinv : GoalsInv (((detect_topics lower).take 3).foldl implicitStep
      (ms.foldl goalStep ([], []))) :=
    GoalsInv_foldl GoalsInv_implicitStep _ _
      (GoalsInv_foldl GoalsInv_goalStep ms ([], [])
        ⟨List.nodup_nil, by simp⟩)
  unfold extract_goals
  set st := ((detect_topics lower).take 3).foldl implicitStep
      (ms.foldl goalStep ([], [])) with hst
  by_cases he : st.1.isEmpty
  · simp only [he, if_pos]
    refine ⟨by simp, by simp, by simp⟩
  · simp only [he, if_neg, Bool.false_eq_true, not_false_iff]
    have hne : st.1 ≠ [] := by
      intro hnil
      rw [hnil] at he
      exact he rfl
    refine ⟨?_, ?_, ?_⟩
    · rw [List.length_take, le_inf_iff]
      exact ⟨by norm_num, List.length_pos.mpr hne⟩
    · rw [List.length_take]
      exact inf_le_left
    · rw [List.map_take]
      exact List.Nodup.sublist (List.take_sublist _ _) hinv.1

/-- C7: for every transcript and every regex behaviour (those where no
goal pattern matches included), `process_trial` returns between 1 and 6
goals whose descriptions are pairwise distinct case-insensitively, and
when both the pattern phase and the implicit phase yield zero goals the
single generic fallback goal is emitted. -/
theorem trial_goals_invariants (R : RegexOracle) (t : String) (sid : ℤ) :
    1 ≤ (process_trial R t sid).goals.length
    ∧ (process_trial R t sid).goals.length ≤ 6
    ∧ ((process_trial R t sid).goals.map
        (fun g => pyLower g.description)).Nodup
    ∧ ((((detect_topics (pyLower t)).take 3).foldl implicitStep
          ((R.goalMatches (pyLower t)).foldl goalStep ([], []))).1 = [] →
        (process_trial R t sid).goals
          = [⟨"Build overall math proficiency",
              "Demonstrate consistent improvement across sessions", none⟩]) := by
  have hgoals : (process_trial R t sid).goals
      = extract_goals (R.goalMatches (pyLower t)) (pyLower t)
          (t.splitOn "\n") := rfl
  obtain ⟨h1, h2, h3⟩ := extract_goals_invariants (R.goalMatches (pyLower t))
    (pyLower t) (t.splitOn "\n")
  refine ⟨hgoals ▸ h1, hgoals ▸ h2, hgoals ▸ h3, ?_⟩
  intro hempty
  rw [hgoals]
  have hdef : extract_goals (R.goalMatches (pyLower t)) (pyLower t)
      (t.splitOn "\n")
      = List.take 6 (if (((detect_topics (pyLower t)).take 3).foldl
            implicitStep ((R.goalMatches (pyLower t)).foldl goalStep
              ([], []))).1.isEmpty then
          [⟨"Build overall math proficiency",
            "Demonstrate consistent improvement across sessions", none⟩]
        else (((detect_topics (pyLower t)).take 3).foldl implicitStep
          ((R.goalMatches (pyLower t)).foldl goalStep ([], []))).1) := rfl
  rw [hdef, hempty]
  rfl

/-- A regex oracle that never matches, for the C7 witness. -/
def emptyOracle : RegexOracle := ⟨fun _ => [], fun _ => [], fun _ => []⟩

/-- Witness for C7: on the empty transcript with no regex matches, the
extractor emits exactly the single fallback goal, which satisfies all
the invariants. -/
theorem trial_goals_invariants_witness :
    1 ≤ (process_trial emptyOracle "" 0).goals.length
    ∧ (process_trial emptyOracle "" 0).goals.length ≤ 6
    ∧ ((process_trial emptyOracle "" 0).goals.map
        (fun g => pyLower g.description)).Nodup
    ∧ (process_trial emptyOracle "" 0).goals
        = [⟨"Build overall math proficiency",
            "Demonstrate consistent improvement across sessions", none⟩] :=
  ⟨(trial_goals_invariants emptyOracle "" 0).1,
   (trial_goals_invariants emptyOracle "" 0).2.1,
   (trial_goals_invariants emptyOracle "" 0).2.2.1,
   (trial_goals_invariants emptyOracle "" 0).2.2.2 (by rfl)⟩

/-- The hesitation count never exceeds the table size 12. -/
theorem hesitationCount_le (lower : String) : hesitationCount lower ≤ 12 := by
  have h := List.length_filter_le
    (fun p => strIn p lower) HESITATION_PHRASES
  simpa [hesitationCount] using h

/-- C10: every signal of `detect_mental_block_signals` has type
`avoidance`, `emotional` or `hesitation` and severity in `[3, 8]`:
avoidance signals carry exactly 3.0, emotional exactly 4.0, and a
hesitation signal appears only when at least 3 of the 12 hesitation
phrases occur, with severity `2 + 0.5·count ∈ [3.5, 8]`. -/
theorem mental_block_signal_invariants (lower : String) (sig : Signal)
    (h : sig ∈ detect_mental_block_signals lower) :
    (sig.type = "avoidance" ∨ sig.type = "emotional"
      ∨ sig.type = "hesitation")
    ∧ 3 ≤ sig.severity ∧ sig.severity ≤ 8
    ∧ (sig.type = "avoidance" → sig.severity = 3)
    ∧ (sig.type = "emotional" → sig.severity = 4)
    ∧ (sig.type = "hesitation" →
        3 ≤ hesitationCount lower
        ∧ sig.severity = 2 + (hesitationCount lower : ℚ) * (1/2)
        ∧ 7/2 ≤ sig.severity ∧ sig.severity ≤ 8) := by
  unfold detect_mental_block_signals at h
  rw [List.mem_append, List.mem_append] at h
  rcases h with (h | h) | h
  · obtain ⟨p, -, rfl⟩ := List.mem_map.mp h
    refine ⟨Or.inl rfl, by norm_num, by norm_num, fun _ => rfl,
      fun hc => ?_, fun hc => ?_⟩ <;> simp at hc
  · obtain ⟨p, -, rfl⟩ := List.mem_map.mp h
    refine ⟨Or.inr (Or.inl rfl), by norm_num, by norm_num,
      fun hc => ?_, fun _ => rfl, fun hc => ?_⟩ <;> simp at hc
  · by_cases hn : hesitationCount lower ≥ 3
    · simp only [hn, if_pos] at h
      rcases List.mem_singleton.mp h with rfl
      have h12 : hesitationCount lower ≤ 12 := hesitationCount_le lower
      have h3 : (3 : ℚ) ≤ (hesitationCount lower : ℚ) := by
        exact_mod_cast hn
      have h12' : (hesitationCount lower : ℚ) ≤ 12 := by
        exact_mod_cast h12
      refine ⟨Or.inr (Or.inr rfl), by linarith, by linarith,
        fun hc => ?_, fun hc => ?_,
        fun _ => ⟨hn, rfl, by linarith, by linarith⟩⟩ <;> simp at hc
    · simp only [hn, if_neg, not_false_iff] at h
      exact absurd h (List.not_mem_nil _)

/-- Concrete transcript for the C10 witness: it contains exactly the
three hesitation phrases "i'm not sure", "wait" and "umm" and no
avoidance or emotional phrase. -/
def hesitationTranscript : String := "i'm not sure wait umm"

/-- The single signal the detector emits on `hesitationTranscript`. -/
def hesitationSig : Signal :=
  ⟨"High hesitation density (3 signals)", "hesitation", 7/2⟩

/-- On `hesitationTranscript` the detector emits exactly the one
hesitation signal of severity 3.5. -/
theorem detect_on_hesitationTranscript :
    detect_mental_block_signals hesitationTranscript = [hesitationSig] := by
  have h : detect_mental_block_signals hesitationTranscript
      = [⟨"High hesitation density (3 signals)", "hesitation",
          2 + ((3 : ℕ) : ℚ) * (1/2)⟩] := rfl
  rw [h, hesitationSig]
  norm_num

/-- Witness for C10: the invariants instantiated at the hesitation
signal emitted on `hesitationTranscript`. -/
theorem mental_block_signal_invariants_witness :
    hesitationSig ∈ detect_mental_block_signals hesitationTranscript
    ∧ ((hesitationSig.type = "avoidance" ∨ hesitationSig.type = "emotional"
        ∨ hesitationSig.type = "hesitation")
      ∧ 3 ≤ hesitationSig.severity ∧ hesitationSig.severity ≤ 8
      ∧ (hesitationSig.type = "avoidance" → hesitationSig.severity = 3)
      ∧ (hesitationSig.type = "emotional" → hesitationSig.severity = 4)
      ∧ (hesitationSig.type = "hesitation" →
          3 ≤ hesitationCount hesitationTranscript
          ∧ hesitationSig.severity
            = 2 + (hesitationCount hesitationTranscript : ℚ) * (1/2)
          ∧ 7/2 ≤ hesitationSig.severity ∧ hesitationSig.severity ≤ 8)) := by
  have hmem : hesitationSig ∈ detect_mental_block_signals
      hesitationTranscript := by
    rw [detect_on_hesitationTranscript]
    exact List.mem_singleton_self _
  exact ⟨hmem,
    mental_block_signal_invariants hesitationTranscript hesitationSig hmem⟩

/-- Evaluation of the tie-breaking round at one decimal:
`round(50.05, 1) = 50.0` (half to even). -/
theorem pyRound0_halfway : pyRound0 (1001/2 : ℚ) = 500 := by
  have hfloor : ⌊(1001/2 : ℚ)⌋ = 500 := by
    rw [Int.floor_eq_iff]
    norm_num
  simp only [pyRound0, hfloor]
  norm_num

/-- `update_mastery` is the identity on any clamped one-decimal score
whenever the weighted delta is zero. -/
theorem update_mastery_zero_delta (p i : ℚ) (e s : ℤ)
    (h0 : 0 ≤ p) (h100 : p ≤ 100) (hgrid : ∃ n : ℤ, p = (n : ℚ) / 10)
    (hdelta : i * 5 - (e : ℚ) * 3 + (s : ℚ) * 4 = 0) :
    update_mastery p i e s = p := by
  obtain ⟨n, rfl⟩ := hgrid
  have hstep : update_mastery ((n : ℚ) / 10) i e s
      = max 0 (min 100 (round1 ((n : ℚ) / 10
          + (i * 5 - (e : ℚ) * 3 + (s : ℚ) * 4)))) := rfl
  rw [hstep, hdelta, add_zero, round1_tenths,
    min_eq_right h100, max_eq_right h0]

/-- Counterexample to C8: `update_mastery` is *not* the identity on
every `prev_score ∈ [0, 100]` under the zero vector — `50.05` is rounded
to `50.0` — and a non-zero update vector need not change the score:
`(improvement, errors, solves) = (0, 4, 3)` has weighted delta
`0·5 − 4·3 + 3·4 = 0` and fixes `50`. -/
theorem update_mastery_idempotence_counterexample :
    ((0 : ℚ) ≤ 1001/20 ∧ (1001/20 : ℚ) ≤ 100
      ∧ update_mastery (1001/20) 0 0 0 ≠ 1001/20)
    ∧ (¬((0 : ℚ) = 0 ∧ (4 : ℤ) = 0 ∧ (3 : ℤ) = 0)
      ∧ update_mastery 50 0 4 3 = 50) := by
  constructor
  · refine ⟨by norm_num, by norm_num, ?_⟩
    have hval : update_mastery (1001/20) 0 0 0
        = max 0 (min 100 (round1 (1001/20
            + ((0 : ℚ) * 5 - ((0 : ℤ) : ℚ) * 3 + ((0 : ℤ) : ℚ) * 4)))) := rfl
    have harg : (1001/20 : ℚ)
        + ((0 : ℚ) * 5 - ((0 : ℤ) : ℚ) * 3 + ((0 : ℤ) : ℚ) * 4)
        = 1001/20 := by push_cast; ring
    have hmul : (1001/20 : ℚ) * 10 = 1001/2 := by norm_num
    rw [hval, harg]
    unfold round1
    rw [hmul, pyRound0_halfway]
    norm_num
  · refine ⟨by norm_num, ?_⟩
    exact update_mastery_zero_delta 50 0 4 3 (by norm_num) (by norm_num)
      ⟨500, by norm_num⟩ (by push_cast; ring)

/-- C8 (amended): the zero-signal update is a no-op on every
representable (one-decimal) score in `[0, 100]` — in particular
`update_mastery 50 0 0 0 = 50` — but more generally any update vector
whose weighted delta `improvement·5 − errors·3 + solves·4` is zero,
including non-zero vectors such as `(0, 4, 3)`, leaves every such score
unchanged. -/
theorem update_mastery_idempotence_amended :
    (∀ p : ℚ, 0 ≤ p → p ≤ 100 → (∃ n : ℤ, p = (n : ℚ) / 10) →
      update_mastery p 0 0 0 = p)
    ∧ update_mastery 50 0 0 0 = 50
    ∧ (∀ p : ℚ, 0 ≤ p → p ≤ 100 → (∃ n : ℤ, p = (n : ℚ) / 10) →
      update_mastery p 0 4 3 = p) :=
  ⟨fun p h0 h100 hg =>
    update_mastery_zero_delta p 0 0 0 h0 h100 hg (by push_cast; ring),
   update_mastery_zero_delta 50 0 0 0 (by norm_num) (by norm_num)
    ⟨500, by norm_num⟩ (by push_cast; ring),
   fun p h0 h100 hg =>
    update_mastery_zero_delta p 0 4 3 h0 h100 hg (by push_cast; ring)⟩

/-- Witness for the amended C8, at the representable score 50. -/
theorem update_mastery_idempotence_amended_witness :
    update_mastery 50 0 0 0 = 50 ∧ update_mastery 50 0 4 3 = 50 :=
  ⟨update_mastery_idempotence_amended.1 50 (by norm_num) (by norm_num)
    ⟨500, by norm_num⟩,
   update_mastery_idempotence_amended.2.2 50 (by norm_num) (by norm_num)
    ⟨500, by norm_num⟩⟩

/-- Any attempted loop iteration makes at least one remote call. -/
theorem callLoop_remoteCalls_pos {α : Type}
    (extract : String → Except String α) (o : GenOutcome)
    (rest : List GenOutcome) (attempt : ℕ) :
    1 ≤ (callLoop extract (o :: rest) attempt).remoteCalls := by
  cases o with
  | failure msg => cases rest <;> simp [callLoop]
  | response text =>
    cases hex : extract (pyStrip text) with
    | ok d => simp [callLoop, hex]
    | error e => cases rest <;> simp [callLoop, hex]

/-- Attempt outcomes for the C3 counterexample: the first remote call
succeeds but returns non-JSON text, the later ones return valid JSON. -/
def malformedThenOk : List GenOutcome :=
  [.response "no json here", .response "\x7b\"summary\": \"ok\"\x7d",
   .response "\x7b\"summary\": \"ok\"\x7d"]

/-- Counterexample to C3: in `_call_gemini` the `_extract_json` call
sits *inside* the `try:` block, so a successfully-returned but malformed
response is caught by the same handler as a transport failure — the loop
sleeps the backoff delay and calls the remote model again.  Here the
malformed first response leads to a second `generate_content` call
(`remoteCalls = 2`, one backoff sleep of 1 s) instead of being terminal. -/
theorem malformed_response_is_retried :
    (call_gemini extract_json_stub malformedThenOk).remoteCalls = 2
    ∧ (call_gemini extract_json_stub malformedThenOk).result
        = .ok [("summary", .str "ok")]
    ∧ (call_gemini extract_json_stub malformedThenOk).sleeps = [1] := by
  refine ⟨rfl, rfl, ?_⟩
  have hs : (call_gemini extract_json_stub malformedThenOk).sleeps
      = [RETRY_BASE_DELAY * 2 ^ 0] := rfl
  rw [hs]
  norm_num [RETRY_BASE_DELAY]

/-- C3 (amended): `_call_gemini` treats *all* exceptions uniformly —
transport failures and JSON-extraction failures alike are caught,
slept on (backoff `base·2^(attempt−1)`) and retried while attempts
remain.  A malformed first response therefore consumes an attempt and
triggers at least one further remote call. -/
theorem malformed_retried_uniformly {α : Type}
    (extract : String → Except String α) (text e : String)
    (o2 o3 : GenOutcome) (h : extract (pyStrip text) = .error e) :
    call_gemini extract [.response text, o2, o3]
      = ⟨(callLoop extract [o2, o3] 2).result,
         (callLoop extract [o2, o3] 2).remoteCalls + 1,
         backoffDelay 1 :: (callLoop extract [o2, o3] 2).sleeps⟩
    ∧ 1 ≤ (callLoop extract [o2, o3] 2).remoteCalls := by
  constructor
  · unfold call_gemini
    have htake : ([GenOutcome.response text, o2, o3].take MAX_RETRIES)
        = [.response text, o2, o3] := rfl
    rw [htake]
    simp only [callLoop, h]
  · exact callLoop_remoteCalls_pos extract o2 [o3] 2

/-- Witness for the amended C3, at a malformed first response followed
by a transport failure and a good response. -/
theorem malformed_retried_uniformly_witness :
    call_gemini extract_json_stub
      [.response "not json", .failure "timeout",
       .response "\x7b\"summary\": \"ok\"\x7d"]
      = ⟨(callLoop extract_json_stub
            [.failure "timeout", .response "\x7b\"summary\": \"ok\"\x7d"] 2).result,
         (callLoop extract_json_stub
            [.failure "timeout", .response "\x7b\"summary\": \"ok\"\x7d"] 2).remoteCalls
           + 1,
         backoffDelay 1 :: (callLoop extract_json_stub
            [.failure "timeout", .response "\x7b\"summary\": \"ok\"\x7d"] 2).sleeps⟩
    ∧ 1 ≤ (callLoop extract_json_stub
        [.failure "timeout", .response "\x7b\"summary\": \"ok\"\x7d"] 2).remoteCalls :=
  malformed_retried_uniformly extract_json_stub "not json"
    "No JSON object found in Gemini response"
    (.failure "timeout") (.response "\x7b\"summary\": \"ok\"\x7d") (by rfl)

/-! ### Dict-lookup lemmas -/

theorem dlookup_cons (e : String × PyVal) (d : List (String × PyVal))
    (k : String) :
    dlookup (e :: d) k = if e.1 == k then some e.2 else dlookup d k := by
  cases h : e.1 == k <;> simp [dlookup, List.find?, h]

theorem dlookup_dset_self (d : List (String × PyVal)) (k : String)
    (v : PyVal) : dlookup (dset d k v) k = some v := by
  induction d with
  | nil => simp [dset, dlookup_cons, dlookup]
  | cons e rest ih =>
    unfold dset
    split
    · simp [dlookup_cons]
    · rename_i h
      rw [dlookup_cons, if_neg h]
      exact ih

theorem dlookup_dset_ne (d : List (String × PyVal)) (k k' : String)
    (v : PyVal) (h : k' ≠ k) :
    dlookup (dset d k v) k' = dlookup d k' := by
  induction d with
  | nil =>
    simp only [dset, dlookup_cons, dlookup]
    have : (k == k') = false := by
      simpa using fun he => h he.symm
    simp [this]
  | cons e rest ih =>
    unfold dset
    split
    · rename_i he
      have he' : e.1 = k := by simpa using he
      rw [dlookup_cons, dlookup_cons]
      have hkk : (k == k') = false := by
        simpa using fun hke => h hke.symm
      rw [hkk, he', hkk]
      simp
    · rw [dlookup_cons, dlookup_cons, ih]

theorem dlookup_append_ne (d : List (String × PyVal)) (k k' : String)
    (v : PyVal) (h : k' ≠ k) :
    dlookup (d ++ [(k, v)]) k' = dlookup d k' := by
  induction d with
  | nil =>
    simp only [List.nil_append, dlookup_cons, dlookup]
    have : (k == k') = false := by
      simpa using fun he => h he.symm
    simp [this]
  | cons e rest ih =>
    rw [List.cons_append, dlookup_cons, dlookup_cons]
    cases he : e.1 == k' with
    | true => rfl
    | false => exact ih

theorem dlookup_dsetdefault_ne (d : List (String × PyVal)) (k k' : String)
    (v : PyVal) (h : k' ≠ k) :
    dlookup (dsetdefault d k v) k' = dlookup d k' := by
  unfold dsetdefault
  split
  · rfl
  · exact dlookup_append_ne d k k' v h

/-- Input for the C4 counterexample: one valid goal, and one topic
whose `name` is empty (falsy), so topic filtering empties the topics
list. -/
def trialEmptyTopics : List (String × PyVal) :=
  [("goals", .list [.dict [("description", .str "Solve linear equations")]]),
   ("topics", .list [.dict [("name", .str "")]])]

/-- Counterexample to C4: `_validate_trial_result` checks emptiness
only for `goals`; a `topics` collection emptied by filtering does *not*
fail the call — the validator returns successfully with
`topics = []`. -/
theorem empty_topics_not_rejected :
    (validate_trial_result trialEmptyTopics).map
      (fun out => dlookup out "topics") = .ok (some (.list [])) := rfl

/-- C4 (amended): `goals` and `topics` must both be *present*; entries
lacking their mandatory sub-field are dropped; if filtering empties
`goals` the call fails — but an emptied `topics` list is returned as-is.
Whenever the validator succeeds, the returned `goals` are exactly the
filtered ones and are non-empty. -/
theorem validate_trial_goals_nonempty
    (result out : List (String × PyVal))
    (h : validate_trial_result result = .ok out) :
    ∃ gv : PyVal, ∃ gitems : List PyVal,
      dlookup result "goals" = some gv
      ∧ pyIter gv = .ok gitems
      ∧ dlookup out "goals" = some (.list (validGoals gitems))
      ∧ validGoals gitems ≠ [] := by
  unfold validate_trial_result at h
  split at h
  · rename_i gv tv hg ht
    dsimp only at h
    split at h
    · exact absurd h (by simp)
    · rename_i gitems hgit
      split at h
      · exact absurd h (by simp)
      · rename_i hne
        split at h
        · exact absurd h (by simp)
        · rename_i titems htit
          split at h
          · exact absurd h (by simp)
          · rename_i mbitems hmbit
            split at h
            · exact absurd h (by simp)
            · rename_i vblocks hvb
              rw [Except.ok.injEq] at h
              subst h
              refine ⟨gv, gitems, hg, hgit, ?_, by simpa using hne⟩
              rw [dlookup_dsetdefault_ne _ _ _ _ (by decide),
                dlookup_dsetdefault_ne _ _ _ _ (by decide),
                dlookup_dsetdefault_ne _ _ _ _ (by decide),
                dlookup_dset_ne _ _ _ _ (by decide),
                dlookup_dset_ne _ _ _ _ (by decide),
                dlookup_dset_self]
  · rename_i hmiss
    exact absurd h (by simp)

/-- Input for the C4 witness: a well-formed trial result with one valid
and one invalid goal. -/
def trialGoodInput : List (String × PyVal) :=
  [("goals", .list [.dict [("description", .str "Factor quadratics")],
                    .dict [("evidence_quote", .str "no description")]]),
   ("topics", .list [.dict [("name", .str "Algebra")]])]

/-- The validator's output on `trialGoodInput`. -/
def trialGoodOutput : List (String × PyVal) :=
  ((validate_trial_result trialGoodInput).toOption).getD []

/-- Witness for the amended C4 at `trialGoodInput`. -/
theorem validate_trial_goals_nonempty_witness :
    ∃ gv : PyVal, ∃ gitems : List PyVal,
      dlookup trialGoodInput "goals" = some gv
      ∧ pyIter gv = .ok gitems
      ∧ dlookup trialGoodOutput "goals" = some (.list (validGoals gitems))
      ∧ validGoals gitems ≠ [] :=
  validate_trial_goals_nonempty trialGoodInput trialGoodOutput (by rfl)

/-- Input for the C5 counterexample: valid goals/topics, but a mental
block whose `severity` is the non-numeric string "high". -/
def trialBadSeverity : List (String × PyVal) :=
  [("goals", .list [.dict [("description", .str "Solve two-step equations")]]),
   ("topics", .list [.dict [("name", .str "Algebra")]]),
   ("mental_blocks",
    .list [.dict [("evidence_from_transcript", .str "I hate fractions"),
                  ("severity", .str "high")]])]

/-- Counterexample to C5: `_validate_trial_result` coerces mental-block
severity with a bare `int(mb.get("severity", 5))`; on the non-numeric
value "high" the coercion raises and the whole validation call fails
instead of substituting a neutral default. -/
theorem severity_coercion_failure_raises :
    validate_trial_result trialBadSeverity
      = .error "ValueError: invalid literal for int()" := rfl

/-- C5 (amended): in `_validate_session_result` numeric coercions are
guarded — a failed engagement-score coercion substitutes 50.0 and a
failed signal-severity coercion substitutes 1.0, clamped to their
documented ranges, never failing the call; in `_validate_trial_result`,
however, the mental-block severity coercion is unguarded and a
non-coercible value fails the whole call. -/
theorem numeric_coercion_defaults :
    (∀ v : PyVal, ∀ e : String, pyFloat v = .error e →
      sessionEngagement v = 50)
    ∧ (∀ v : PyVal, 0 ≤ sessionEngagement v ∧ sessionEngagement v ≤ 100)
    ∧ (∀ sd : List (String × PyVal), ∀ e : String,
        pyTruthy (dgetD sd "description" .none_) = true →
        pyFloat (dgetD sd "severity" (.int 1)) = .error e →
        ∃ sd' : List (String × PyVal),
          sanitizeSignal (.dict sd) = some (.dict sd')
          ∧ dlookup sd' "severity" = some (.float 1))
    ∧ (∀ md : List (String × PyVal), ∀ e : String,
        pyInt (dgetD md "severity" (.int 5)) = .error e →
        sanitizeBlock md = .error e) := by
  refine ⟨?_, ?_, ?_, ?_⟩
  · intro v e h
    unfold sessionEngagement
    dsimp only
    rw [h]
    norm_num
  · intro v
    unfold sessionEngagement
    dsimp only
    exact ⟨le_max_left _ _, max_le (by norm_num) (min_le_left _ _)⟩
  · intro sd e h1 h2
    unfold sanitizeSignal
    dsimp only
    have hget : dgetD (dsetdefault sd "type" (.str "confusion"))
        "severity" (.int 1) = dgetD sd "severity" (.int 1) := by
      unfold dgetD
      rw [dlookup_dsetdefault_ne _ _ _ _ (by decide)]
    rw [h1, hget, h2]
    have hclamp : max (0 : ℚ) (min 10 1) = 1 := by norm_num
    simp only [if_pos, hclamp]
    refine ⟨_, rfl, ?_⟩
    rw [dlookup_dsetdefault_ne _ _ _ _ (by decide),
      dlookup_dsetdefault_ne _ _ _ _ (by decide),
      dlookup_dsetdefault_ne _ _ _ _ (by decide),
      dlookup_dset_self]
  · intro md e h
    unfold sanitizeBlock
    dsimp only
    have hget : dgetD (dsetdefault md "block_type" (.str "confusion"))
        "severity" (.int 5) = dgetD md "severity" (.int 5) := by
      unfold dgetD
      rw [dlookup_dsetdefault_ne _ _ _ _ (by decide)]
    rw [hget, h]

/-- Witness for the amended C5 at concrete non-coercible values. -/
theorem numeric_coercion_defaults_witness :
    sessionEngagement (.str "unknown") = 50
    ∧ (0 ≤ sessionEngagement (.list []) ∧ sessionEngagement (.list []) ≤ 100)
    ∧ (∃ sd' : List (String × PyVal),
        sanitizeSignal (.dict [("description", .str "Anxiety spike"),
          ("severity", .str "severe")]) = some (.dict sd')
        ∧ dlookup sd' "severity" = some (.float 1))
    ∧ sanitizeBlock [("evidence_from_transcript", .str "quote"),
        ("severity", .str "high")]
      = .error "ValueError: invalid literal for int()" :=
  ⟨numeric_coercion_defaults.1 (.str "unknown")
    "ValueError: could not convert string to float" (by rfl),
   numeric_coercion_defaults.2.1 (.list []),
   numeric_coercion_defaults.2.2.1
    [("description", .str "Anxiety spike"), ("severity", .str "severe")]
    "ValueError: could not convert string to float" (by rfl) (by rfl),
   numeric_coercion_defaults.2.2.2
    [("evidence_from_transcript", .str "quote"), ("severity", .str "high")]
    "ValueError: invalid literal for int()" (by rfl)⟩

end Engine
